import Mathlib

/-!
Verification development for the blood supply-chain optimization model
(`modelo_normalizacion_corregida.py`).  The Python source assembles a
Pyomo `ConcreteModel`: index sets, decision variables, a `ConstraintList`
of linear relations, and a composite normalized objective.  We embed the
model shallowly: an assignment of rational values to every decision
variable is a structure of functions, every constraint emitted by
`crear_modelo_base` becomes an element of a `List Constr`, and the
objective `objetivo_combinado_corregido` becomes a rational-valued
function of the assignment.  Numeric parameters are gathered in a
`Params` structure whose default instance `params₀` carries the central
values computed in the source (`central_int` / `central_float` of the
declared ranges); the parameter table is the "parameter source boundary"
of the system, so the constraint generator and objective composer are
written uniformly over any `Params`.
-/

namespace BloodSC

/-- Sum of a rational-valued function over a list (the shallow image of a
Python `sum(... for x in L)` generator expression). -/
def sumQ {α : Type} (l : List α) (f : α → ℚ) : ℚ := (l.map f).sum

-- ===========================================================
-- Index sets (source lines 100–121)
-- ===========================================================

/-- I: blood mobile units. -/
def Iset : List String := ["BM1", "BM2", "BM3"]

/-- J: local blood distribution centers. -/
def Jset : List String := ["LBDC1", "LBDC2", "LBDC3"]

/-- R: regional blood banks. -/
def Rset : List String := ["RBB1", "RBB2"]

/-- H: hospitals. -/
def Hset : List String := ["H1", "H2", "H3", "H4"]

/-- K: clinics. -/
def Kset : List String := ["C1", "C2"]

/-- U: waste centers. -/
def Uset : List String := ["W1", "W2"]

/-- P: blood product types. -/
def Pset : List String := ["A", "B", "AB", "O"]

/-- T: time periods 1..45. -/
def Tset : List Nat := (List.range 45).map (· + 1)

-- ===========================================================
-- Parameter table (source lines 160–414, central values)
-- ===========================================================

/-- The source's `central_int(a, b)`: integer midpoint of a range. -/
def central_int (a b : Int) : ℚ := ((a + b : ℚ)) / 2

/-- All numeric parameters consumed by the constraint generator and the
objective composer.  In the source these are module-level dictionaries
keyed by index tuples; here each is a total function over the index
space.  The defaults (`params₀`) are the source's central values. -/
structure Params where
  DM_h : Nat → String → String → ℚ
  DM_k : Nat → String → String → ℚ
  PA : Nat → String → String → ℚ
  SC_r : String → String → ℚ
  SC_h : String → String → ℚ
  SC_k : String → String → ℚ
  ALPHA : Nat
  FC_BM : ℚ
  FC_LBDC : ℚ
  d_ir : String → String → ℚ
  d_jr : String → String → ℚ
  d_rh : String → String → ℚ
  d_rk : String → String → ℚ
  d_jh : String → String → ℚ
  d_jk : String → String → ℚ
  d_rr : String → String → ℚ
  d_ru : String → String → ℚ
  d_hu : String → String → ℚ
  d_ku : String → String → ℚ
  EP : Nat → String → String → ℚ
  EI_r : Nat → String → String → ℚ
  EI_h : Nat → String → String → ℚ
  EI_k : Nat → String → String → ℚ
  EX_ir : Nat → String → String → String → ℚ
  EX_jr : Nat → String → String → String → ℚ
  EX_jh : Nat → String → String → String → ℚ
  EX_jk : Nat → String → String → String → ℚ
  EX_rh : Nat → String → String → String → ℚ
  EX_rk : Nat → String → String → String → ℚ
  EX_rr : Nat → String → String → String → ℚ
  CAP : Nat → ℚ
  EC : ℚ
  RHO : ℚ
  W1 : ℚ
  W2 : ℚ
  W3 : ℚ
  SP_rh : Nat → String → String → String → ℚ
  SP_rk : Nat → String → String → String → ℚ
  OC : Nat → String → String → ℚ
  PC_ir : Nat → String → String → String → ℚ
  PC_jr : Nat → String → String → String → ℚ
  IC_r : Nat → String → String → ℚ
  IC_h : Nat → String → String → ℚ
  IC_k : Nat → String → String → ℚ
  WC_r : Nat → String → String → ℚ
  WC_h : Nat → String → String → ℚ
  WC_k : Nat → String → String → ℚ
  XC_ir : Nat → String → String → String → ℚ
  XC_jr : Nat → String → String → String → ℚ
  XC_jh : Nat → String → String → String → ℚ
  XC_jk : Nat → String → String → String → ℚ
  XC_rh : Nat → String → String → String → ℚ
  XC_rk : Nat → String → String → String → ℚ
  XC_rr : Nat → String → String → String → ℚ
  XC_ru : Nat → String → String → String → ℚ
  XC_hu : Nat → String → String → String → ℚ
  XC_ku : Nat → String → String → String → ℚ
  CAP_BM : Nat → String → String → ℚ
  CAP_LBDC : Nat → String → String → ℚ
  Z_Pro_ref : ℚ
  T_LS_ref : ℚ
  T_E_ref : ℚ

/-- Default parameter table: the central values generated by the source
(`central_int` / `central_float` of the declared ranges, demand 13,
carbon cap 1000, weights 0.5/0.3/0.2, ρ = 0.8, fixed references from the
East Kalimantan case study).  `d_rr` is 18 km between distinct banks and
0 for the same bank. -/
def params₀ : Params :=
  { DM_h := fun _ _ _ => 13
    DM_k := fun _ _ _ => 13
    PA := fun _ _ _ => central_int 300 450
    SC_r := fun _ _ => 10000
    SC_h := fun _ _ => 2000
    SC_k := fun _ _ => 2000
    ALPHA := 25
    FC_BM := 500000
    FC_LBDC := 750000
    d_ir := fun _ _ => 13.5
    d_jr := fun _ _ => 11.5
    d_rh := fun _ _ => 15.25
    d_rk := fun _ _ => 15.25
    d_jh := fun _ _ => 13.0
    d_jk := fun _ _ => 13.0
    d_rr := fun r1 r2 => if r1 ≠ r2 then 18.0 else 0.0
    d_ru := fun _ _ => 16.75
    d_hu := fun _ _ => 16.75
    d_ku := fun _ _ => 16.75
    EP := fun _ _ _ => 0.0425
    EI_r := fun _ _ _ => 0.00425
    EI_h := fun _ _ _ => 0.00425
    EI_k := fun _ _ _ => 0.00425
    EX_ir := fun _ _ _ _ => 0.000425
    EX_jr := fun _ _ _ _ => 0.000425
    EX_jh := fun _ _ _ _ => 0.000425
    EX_jk := fun _ _ _ _ => 0.000425
    EX_rh := fun _ _ _ _ => 0.000425
    EX_rk := fun _ _ _ _ => 0.000425
    EX_rr := fun _ _ _ _ => 0.000425
    CAP := fun _ => 1000
    EC := 250000
    RHO := 0.8
    W1 := 0.5
    W2 := 0.3
    W3 := 0.2
    SP_rh := fun _ _ _ _ => central_int 288000 292000
    SP_rk := fun _ _ _ _ => central_int 358000 362000
    OC := fun _ _ _ => central_int 180000 200000
    PC_ir := fun _ _ _ _ => central_int 50000 100000
    PC_jr := fun _ _ _ _ => central_int 50000 100000
    IC_r := fun _ _ _ => central_int 130 150
    IC_h := fun _ _ _ => central_int 130 150
    IC_k := fun _ _ _ => central_int 130 150
    WC_r := fun _ _ _ => central_int 5000 7000
    WC_h := fun _ _ _ => central_int 5000 7000
    WC_k := fun _ _ _ => central_int 5000 7000
    XC_ir := fun _ _ _ _ => central_int 10 50
    XC_jr := fun _ _ _ _ => central_int 10 50
    XC_jh := fun _ _ _ _ => central_int 10 50
    XC_jk := fun _ _ _ _ => central_int 10 50
    XC_rh := fun _ _ _ _ => central_int 10 50
    XC_rk := fun _ _ _ _ => central_int 10 50
    XC_rr := fun _ _ _ _ => central_int 10 50
    XC_ru := fun _ _ _ _ => central_int 10 50
    XC_hu := fun _ _ _ _ => central_int 10 50
    XC_ku := fun _ _ _ _ => central_int 10 50
    CAP_BM := fun _ _ _ => central_int 50 150
    CAP_LBDC := fun _ _ _ => central_int 100 200
    Z_Pro_ref := 4488461514
    T_LS_ref := 1.3185
    T_E_ref := 203.94 }

-- ===========================================================
-- Variable registry (source lines 452–521)
-- ===========================================================

/-- One value for every decision variable of the model: the shallow image
of a Pyomo variable assignment (what `value(...)` reads back after a
solve).  Each field mirrors one `m.* = Var(...)` declaration. -/
structure Assignment where
  XD_ir : Nat → String → String → String → ℚ
  XD_jr : Nat → String → String → String → ℚ
  XD_jh : Nat → String → String → String → ℚ
  XD_jk : Nat → String → String → String → ℚ
  XD_rh : Nat → String → String → String → ℚ
  XD_rk : Nat → String → String → String → ℚ
  XD_rr : Nat → String → String → String → ℚ
  XD_ru : Nat → String → String → String → ℚ
  XD_hu : Nat → String → String → String → ℚ
  XD_ku : Nat → String → String → String → ℚ
  PR : Nat → String → String → ℚ
  IR : Nat → String → String → ℚ
  IH : Nat → String → String → ℚ
  IK : Nat → String → String → ℚ
  WO_r : Nat → String → String → ℚ
  WO_h : Nat → String → String → ℚ
  WO_k : Nat → String → String → ℚ
  y_i : Nat → String → ℚ
  y_j : Nat → String → ℚ
  y_r : Nat → String → ℚ

/-- The index tuples over which `m.XD_rr = Var(m.T, m.P, m.R, m.R)`
declares a cross-transfer variable (source line 470): the full Cartesian
product, with no exclusion of equal origin/destination. -/
def XD_rr_indices : List (Nat × String × String × String) :=
  Tset.flatMap fun t => Pset.flatMap fun p =>
    Rset.flatMap fun r1 => Rset.map fun r2 => (t, p, r1, r2)

-- ===========================================================
-- Constraints
-- ===========================================================

/-- Relation of a linear constraint (`==`, `<=`, `>=`). -/
inductive Rel where
  | eq : Rel
  | le : Rel
  | ge : Rel

/-- One emitted constraint: two rational expressions over the assignment
and a relation between them. -/
structure Constr where
  lhs : Assignment → ℚ
  rel : Rel
  rhs : Assignment → ℚ

/-- A constraint holds for an assignment. -/
def Constr.holds (c : Constr) (σ : Assignment) : Prop :=
  match c.rel with
  | .eq => c.lhs σ = c.rhs σ
  | .le => c.lhs σ ≤ c.rhs σ
  | .ge => c.lhs σ ≥ c.rhs σ

instance (c : Constr) (σ : Assignment) : Decidable (c.holds σ) := by
  unfold Constr.holds
  match c.rel with
  | .eq => exact inferInstance
  | .le => exact inferInstance
  | .ge => exact inferInstance

-- ===========================================================
-- Constraint generator (`crear_modelo_base`, source lines 539–758)
-- ===========================================================

/-- Restriction 1 (lines 539–568): inventory balance at a regional bank.
`IR_prev + (PR + Σᵢ XD_ir + Σⱼ XD_jr + Σ_{r2≠r} XD_rr[r2→r])
  == IR + (Σₕ XD_rh + Σₖ XD_rk + Σ_{r2≠r} XD_rr[r→r2] + Σᵤ XD_ru + WO_r)`
with `IR_prev = 0` when `t = 1`. -/
def cBalR (t : Nat) (p r : String) : Constr :=
  { lhs := fun σ =>
      (if t = 1 then 0 else σ.IR (t - 1) p r) +
        (σ.PR t p r +
          sumQ Iset (fun i => σ.XD_ir t p i r) +
          sumQ Jset (fun j => σ.XD_jr t p j r) +
          sumQ (Rset.filter (fun r2 => r2 != r)) (fun r2 => σ.XD_rr t p r2 r))
    rel := .eq
    rhs := fun σ =>
      σ.IR t p r +
        (sumQ Hset (fun h => σ.XD_rh t p r h) +
          sumQ Kset (fun k => σ.XD_rk t p r k) +
          sumQ (Rset.filter (fun r2 => r2 != r)) (fun r2 => σ.XD_rr t p r r2) +
          sumQ Uset (fun u => σ.XD_ru t p r u) +
          σ.WO_r t p r) }

/-- Restriction 2 (lines 577–601): inventory balance at a hospital.
Inflows from local centers and regional banks; outflows are the fixed
demand, shipments to waste centers and in-situ discard; no production. -/
def cBalH (pm : Params) (t : Nat) (p h : String) : Constr :=
  { lhs := fun σ =>
      (if t = 1 then 0 else σ.IH (t - 1) p h) +
        (sumQ Jset (fun j => σ.XD_jh t p j h) +
          sumQ Rset (fun r => σ.XD_rh t p r h))
    rel := .eq
    rhs := fun σ =>
      σ.IH t p h +
        (pm.DM_h t p h +
          sumQ Uset (fun u => σ.XD_hu t p h u) +
          σ.WO_h t p h) }

/-- Restriction 3 (lines 609–633): inventory balance at a clinic,
analogous to the hospital balance. -/
def cBalK (pm : Params) (t : Nat) (p k : String) : Constr :=
  { lhs := fun σ =>
      (if t = 1 then 0 else σ.IK (t - 1) p k) +
        (sumQ Jset (fun j => σ.XD_jk t p j k) +
          sumQ Rset (fun r => σ.XD_rk t p r k))
    rel := .eq
    rhs := fun σ =>
      σ.IK t p k +
        (pm.DM_k t p k +
          sumQ Uset (fun u => σ.XD_ku t p k u) +
          σ.WO_k t p k) }

/-- Restriction 4 (line 645): production does not exceed available
capacity. -/
def cCapPR (pm : Params) (t : Nat) (p r : String) : Constr :=
  { lhs := fun σ => σ.PR t p r, rel := .le, rhs := fun _ => pm.PA t p r }

/-- Restriction 4 (line 647): regional-bank inventory does not exceed
storage capacity. -/
def cCapIR (pm : Params) (t : Nat) (p r : String) : Constr :=
  { lhs := fun σ => σ.IR t p r, rel := .le, rhs := fun _ => pm.SC_r p r }

/-- Restriction 4 (line 651): mobile-unit outbound flow does not exceed
its processing capacity. -/
def cCapBM (pm : Params) (t : Nat) (p i : String) : Constr :=
  { lhs := fun σ => sumQ Rset (fun r => σ.XD_ir t p i r)
    rel := .le
    rhs := fun _ => pm.CAP_BM t p i }

/-- Restriction 4 (lines 655–658): local-center aggregate outbound flow
does not exceed its processing capacity. -/
def cCapLBDC (pm : Params) (t : Nat) (p j : String) : Constr :=
  { lhs := fun σ =>
      sumQ Rset (fun r => σ.XD_jr t p j r) +
        sumQ Hset (fun h => σ.XD_jh t p j h) +
        sumQ Kset (fun k => σ.XD_jk t p j k)
    rel := .le
    rhs := fun _ => pm.CAP_LBDC t p j }

/-- Restriction 4 (line 662): hospital inventory does not exceed storage
capacity. -/
def cCapIH (pm : Params) (t : Nat) (p h : String) : Constr :=
  { lhs := fun σ => σ.IH t p h, rel := .le, rhs := fun _ => pm.SC_h p h }

/-- Restriction 4 (line 664): clinic inventory does not exceed storage
capacity. -/
def cCapIK (pm : Params) (t : Nat) (p k : String) : Constr :=
  { lhs := fun σ => σ.IK t p k, rel := .le, rhs := fun _ => pm.SC_k p k }

/-- Production emissions of period `t` (line 674). -/
def emision_prod_t (pm : Params) (t : Nat) (σ : Assignment) : ℚ :=
  sumQ Pset fun p => sumQ Rset fun r => pm.EP t p r * σ.PR t p r

/-- Storage emissions of period `t` (lines 677–679): inventory at
regional banks, hospitals and clinics. -/
def emision_inv_t (pm : Params) (t : Nat) (σ : Assignment) : ℚ :=
  (sumQ Pset fun p => sumQ Rset fun r => pm.EI_r t p r * σ.IR t p r) +
    (sumQ Pset fun p => sumQ Hset fun h => pm.EI_h t p h * σ.IH t p h) +
    (sumQ Pset fun p => sumQ Kset fun k => pm.EI_k t p k * σ.IK t p k)

/-- Transport emissions of period `t` (lines 682–690): every route with
an emission factor (I→R, J→R, J→H, J→K, R→H, R→K and distinct-pair
R→R cross-transfers). -/
def emision_transp_t (pm : Params) (t : Nat) (σ : Assignment) : ℚ :=
  (sumQ Pset fun p => sumQ Iset fun i => sumQ Rset fun r =>
      pm.EX_ir t p i r * σ.XD_ir t p i r * pm.d_ir i r) +
    (sumQ Pset fun p => sumQ Jset fun j => sumQ Rset fun r =>
      pm.EX_jr t p j r * σ.XD_jr t p j r * pm.d_jr j r) +
    (sumQ Pset fun p => sumQ Jset fun j => sumQ Hset fun h =>
      pm.EX_jh t p j h * σ.XD_jh t p j h * pm.d_jh j h) +
    (sumQ Pset fun p => sumQ Jset fun j => sumQ Kset fun k =>
      pm.EX_jk t p j k * σ.XD_jk t p j k * pm.d_jk j k) +
    (sumQ Pset fun p => sumQ Rset fun r => sumQ Hset fun h =>
      pm.EX_rh t p r h * σ.XD_rh t p r h * pm.d_rh r h) +
    (sumQ Pset fun p => sumQ Rset fun r => sumQ Kset fun k =>
      pm.EX_rk t p r k * σ.XD_rk t p r k * pm.d_rk r k) +
    (sumQ Pset fun p => sumQ Rset fun r1 =>
      sumQ (Rset.filter (fun r2 => r1 != r2)) fun r2 =>
        pm.EX_rr t p r1 r2 * σ.XD_rr t p r1 r2 * pm.d_rr r1 r2)

/-- Restriction 5 (lines 672–693): the per-period carbon cap, one single
system-wide constraint per period. -/
def cCarbonCap (pm : Params) (t : Nat) : Constr :=
  { lhs := fun σ =>
      emision_prod_t pm t σ + emision_inv_t pm t σ + emision_transp_t pm t σ
    rel := .le
    rhs := fun _ => pm.CAP t }

/-- Restriction 6 (lines 704–707): aggregate supply to a hospital is at
most 1.1 × its demand. -/
def cSupH (pm : Params) (t : Nat) (p h : String) : Constr :=
  { lhs := fun σ =>
      sumQ Jset (fun j => σ.XD_jh t p j h) + sumQ Rset (fun r => σ.XD_rh t p r h)
    rel := .le
    rhs := fun _ => 1.1 * pm.DM_h t p h }

/-- Restriction 6 (lines 710–713): aggregate supply to a clinic is at
most 1.6 × its demand. -/
def cSupK (pm : Params) (t : Nat) (p k : String) : Constr :=
  { lhs := fun σ =>
      sumQ Jset (fun j => σ.XD_jk t p j k) + sumQ Rset (fun r => σ.XD_rk t p r k)
    rel := .le
    rhs := fun _ => 1.6 * pm.DM_k t p k }

/-- Restriction 7 (line 729): regional-bank discard in period `t` is
bounded by the inventory ALPHA periods earlier. -/
def cShelfR (pm : Params) (t : Nat) (p r : String) : Constr :=
  { lhs := fun σ => σ.WO_r t p r, rel := .le
    rhs := fun σ => σ.IR (t - pm.ALPHA) p r }

/-- Restriction 7 (line 733): hospital discard bound. -/
def cShelfH (pm : Params) (t : Nat) (p h : String) : Constr :=
  { lhs := fun σ => σ.WO_h t p h, rel := .le
    rhs := fun σ => σ.IH (t - pm.ALPHA) p h }

/-- Restriction 7 (line 737): clinic discard bound. -/
def cShelfK (pm : Params) (t : Nat) (p k : String) : Constr :=
  { lhs := fun σ => σ.WO_k t p k, rel := .le
    rhs := fun σ => σ.IK (t - pm.ALPHA) p k }

/-- Restriction 8 (line 747): each mobile unit is activated in at least
one period. -/
def cActI (i : String) : Constr :=
  { lhs := fun σ => sumQ Tset (fun t => σ.y_i t i), rel := .ge, rhs := fun _ => 1 }

/-- Restriction 8 (line 751): each local center is activated in at least
one period. -/
def cActJ (j : String) : Constr :=
  { lhs := fun σ => sumQ Tset (fun t => σ.y_j t j), rel := .ge, rhs := fun _ => 1 }

/-- Restriction 8 (line 755): each regional bank is activated in at
least one period. -/
def cActR (r : String) : Constr :=
  { lhs := fun σ => sumQ Tset (fun t => σ.y_r t r), rel := .ge, rhs := fun _ => 1 }

/-- Balance constraints for regional banks (loop at lines 539–568). -/
def balance_R : List Constr :=
  Tset.flatMap fun t => Pset.flatMap fun p => Rset.map fun r => cBalR t p r

/-- Balance constraints for hospitals (loop at lines 577–601). -/
def balance_H (pm : Params) : List Constr :=
  Tset.flatMap fun t => Pset.flatMap fun p => Hset.map fun h => cBalH pm t p h

/-- Balance constraints for clinics (loop at lines 609–633). -/
def balance_K (pm : Params) : List Constr :=
  Tset.flatMap fun t => Pset.flatMap fun p => Kset.map fun k => cBalK pm t p k

/-- Capacity constraints (loop at lines 640–664), in source emission
order: per (t, p): production and storage at each regional bank, then
mobile units, local centers, hospitals, clinics. -/
def capacidades (pm : Params) : List Constr :=
  Tset.flatMap fun t => Pset.flatMap fun p =>
    (Rset.flatMap fun r => [cCapPR pm t p r, cCapIR pm t p r]) ++
      (Iset.map fun i => cCapBM pm t p i) ++
      (Jset.map fun j => cCapLBDC pm t p j) ++
      (Hset.map fun h => cCapIH pm t p h) ++
      (Kset.map fun k => cCapIK pm t p k)

/-- Environmental-cap constraints (loop at lines 672–693): exactly one
constraint added per period. -/
def limite_ambiental (pm : Params) : List Constr :=
  Tset.map fun t => cCarbonCap pm t

/-- Supply-bound constraints (loop at lines 701–713). -/
def limites_suministro (pm : Params) : List Constr :=
  Tset.flatMap fun t => Pset.flatMap fun p =>
    (Hset.map fun h => cSupH pm t p h) ++ (Kset.map fun k => cSupK pm t p k)

/-- Shelf-life constraints (loop at lines 722–737): generated only when
`t > ALPHA`; for `t ≤ ALPHA` the loop body is skipped entirely. -/
def vida_util (pm : Params) : List Constr :=
  Tset.flatMap fun t =>
    if pm.ALPHA < t then
      Pset.flatMap fun p =>
        (Rset.map fun r => cShelfR pm t p r) ++
          (Hset.map fun h => cShelfH pm t p h) ++
          (Kset.map fun k => cShelfK pm t p k)
    else []

/-- Minimum-activation constraints (loops at lines 746–755). -/
def activacion_minima : List Constr :=
  (Iset.map cActI) ++ (Jset.map cActJ) ++ (Rset.map cActR)

/-- The full constraint list built by `crear_modelo_base`, in emission
order. -/
def restricciones (pm : Params) : List Constr :=
  balance_R ++ balance_H pm ++ balance_K pm ++ capacidades pm ++
    limite_ambiental pm ++ limites_suministro pm ++ vida_util pm ++
    activacion_minima

/-- Variable-domain conditions attached at declaration time: every flow,
production, inventory and discard variable is `NonNegativeReals` and
every activation variable is `Binary`, over the declared index sets. -/
def domainOk (σ : Assignment) : Prop :=
  (∀ t ∈ Tset, ∀ p ∈ Pset, ∀ i ∈ Iset, ∀ r ∈ Rset, 0 ≤ σ.XD_ir t p i r) ∧
  (∀ t ∈ Tset, ∀ p ∈ Pset, ∀ j ∈ Jset, ∀ r ∈ Rset, 0 ≤ σ.XD_jr t p j r) ∧
  (∀ t ∈ Tset, ∀ p ∈ Pset, ∀ j ∈ Jset, ∀ h ∈ Hset, 0 ≤ σ.XD_jh t p j h) ∧
  (∀ t ∈ Tset, ∀ p ∈ Pset, ∀ j ∈ Jset, ∀ k ∈ Kset, 0 ≤ σ.XD_jk t p j k) ∧
  (∀ t ∈ Tset, ∀ p ∈ Pset, ∀ r ∈ Rset, ∀ h ∈ Hset, 0 ≤ σ.XD_rh t p r h) ∧
  (∀ t ∈ Tset, ∀ p ∈ Pset, ∀ r ∈ Rset, ∀ k ∈ Kset, 0 ≤ σ.XD_rk t p r k) ∧
  (∀ t ∈ Tset, ∀ p ∈ Pset, ∀ r1 ∈ Rset, ∀ r2 ∈ Rset, 0 ≤ σ.XD_rr t p r1 r2) ∧
  (∀ t ∈ Tset, ∀ p ∈ Pset, ∀ r ∈ Rset, ∀ u ∈ Uset, 0 ≤ σ.XD_ru t p r u) ∧
  (∀ t ∈ Tset, ∀ p ∈ Pset, ∀ h ∈ Hset, ∀ u ∈ Uset, 0 ≤ σ.XD_hu t p h u) ∧
  (∀ t ∈ Tset, ∀ p ∈ Pset, ∀ k ∈ Kset, ∀ u ∈ Uset, 0 ≤ σ.XD_ku t p k u) ∧
  (∀ t ∈ Tset, ∀ p ∈ Pset, ∀ r ∈ Rset, 0 ≤ σ.PR t p r) ∧
  (∀ t ∈ Tset, ∀ p ∈ Pset, ∀ r ∈ Rset, 0 ≤ σ.IR t p r) ∧
  (∀ t ∈ Tset, ∀ p ∈ Pset, ∀ h ∈ Hset, 0 ≤ σ.IH t p h) ∧
  (∀ t ∈ Tset, ∀ p ∈ Pset, ∀ k ∈ Kset, 0 ≤ σ.IK t p k) ∧
  (∀ t ∈ Tset, ∀ p ∈ Pset, ∀ r ∈ Rset, 0 ≤ σ.WO_r t p r) ∧
  (∀ t ∈ Tset, ∀ p ∈ Pset, ∀ h ∈ Hset, 0 ≤ σ.WO_h t p h) ∧
  (∀ t ∈ Tset, ∀ p ∈ Pset, ∀ k ∈ Kset, 0 ≤ σ.WO_k t p k) ∧
  (∀ t ∈ Tset, ∀ i ∈ Iset, σ.y_i t i = 0 ∨ σ.y_i t i = 1) ∧
  (∀ t ∈ Tset, ∀ j ∈ Jset, σ.y_j t j = 0 ∨ σ.y_j t j = 1) ∧
  (∀ t ∈ Tset, ∀ r ∈ Rset, σ.y_r t r = 0 ∨ σ.y_r t r = 1)

/-- A feasible assignment: variable domains respected and every emitted
constraint satisfied. -/
def Feasible (pm : Params) (σ : Assignment) : Prop :=
  domainOk σ ∧ ∀ c ∈ restricciones pm, c.holds σ

-- ===========================================================
-- Objective composer (`objetivo_combinado_corregido`, lines 812–881)
-- ===========================================================

/-- Revenue (lines 814–815): price × delivered flow on the regional→
hospital and regional→clinic routes. -/
def revenue (pm : Params) (σ : Assignment) : ℚ :=
  (sumQ Tset fun t => sumQ Pset fun p => sumQ Rset fun r => sumQ Hset fun h =>
      pm.SP_rh t p r h * σ.XD_rh t p r h) +
    (sumQ Tset fun t => sumQ Pset fun p => sumQ Rset fun r => sumQ Kset fun k =>
      pm.SP_rk t p r k * σ.XD_rk t p r k)

/-- TC1 (lines 817–818): fixed activation costs of mobile units and
local centers. -/
def TC1 (pm : Params) (σ : Assignment) : ℚ :=
  (sumQ Tset fun t => sumQ Iset fun i => pm.FC_BM * σ.y_i t i) +
    (sumQ Tset fun t => sumQ Jset fun j => pm.FC_LBDC * σ.y_j t j)

/-- TC2 (lines 820–821): acquisition cost of inbound flow to regional
banks. -/
def TC2 (pm : Params) (σ : Assignment) : ℚ :=
  (sumQ Tset fun t => sumQ Pset fun p => sumQ Iset fun i => sumQ Rset fun r =>
      pm.PC_ir t p i r * σ.XD_ir t p i r) +
    (sumQ Tset fun t => sumQ Pset fun p => sumQ Jset fun j => sumQ Rset fun r =>
      pm.PC_jr t p j r * σ.XD_jr t p j r)

/-- TC3 (line 823): production cost. -/
def TC3 (pm : Params) (σ : Assignment) : ℚ :=
  sumQ Tset fun t => sumQ Pset fun p => sumQ Rset fun r =>
    pm.OC t p r * σ.PR t p r

/-- TC4 (lines 825–827): inventory-holding cost at regional banks,
hospitals and clinics. -/
def TC4 (pm : Params) (σ : Assignment) : ℚ :=
  (sumQ Tset fun t => sumQ Pset fun p => sumQ Rset fun r =>
      pm.IC_r t p r * σ.IR t p r) +
    (sumQ Tset fun t => sumQ Pset fun p => sumQ Hset fun h =>
      pm.IC_h t p h * σ.IH t p h) +
    (sumQ Tset fun t => sumQ Pset fun p => sumQ Kset fun k =>
      pm.IC_k t p k * σ.IK t p k)

/-- TC5 (lines 829–831): discard-handling cost. -/
def TC5 (pm : Params) (σ : Assignment) : ℚ :=
  (sumQ Tset fun t => sumQ Pset fun p => sumQ Rset fun r =>
      pm.WC_r t p r * σ.WO_r t p r) +
    (sumQ Tset fun t => sumQ Pset fun p => sumQ Hset fun h =>
      pm.WC_h t p h * σ.WO_h t p h) +
    (sumQ Tset fun t => sumQ Pset fun p => sumQ Kset fun k =>
      pm.WC_k t p k * σ.WO_k t p k)

/-- TC6 (lines 833–842): transport cost (unit cost × flow × distance)
over every route family, waste routes included. -/
def TC6 (pm : Params) (σ : Assignment) : ℚ :=
  (sumQ Tset fun t => sumQ Pset fun p => sumQ Iset fun i => sumQ Rset fun r =>
      pm.XC_ir t p i r * σ.XD_ir t p i r * pm.d_ir i r) +
    (sumQ Tset fun t => sumQ Pset fun p => sumQ Jset fun j => sumQ Rset fun r =>
      pm.XC_jr t p j r * σ.XD_jr t p j r * pm.d_jr j r) +
    (sumQ Tset fun t => sumQ Pset fun p => sumQ Jset fun j => sumQ Hset fun h =>
      pm.XC_jh t p j h * σ.XD_jh t p j h * pm.d_jh j h) +
    (sumQ Tset fun t => sumQ Pset fun p => sumQ Jset fun j => sumQ Kset fun k =>
      pm.XC_jk t p j k * σ.XD_jk t p j k * pm.d_jk j k) +
    (sumQ Tset fun t => sumQ Pset fun p => sumQ Rset fun r => sumQ Hset fun h =>
      pm.XC_rh t p r h * σ.XD_rh t p r h * pm.d_rh r h) +
    (sumQ Tset fun t => sumQ Pset fun p => sumQ Rset fun r => sumQ Kset fun k =>
      pm.XC_rk t p r k * σ.XD_rk t p r k * pm.d_rk r k) +
    (sumQ Tset fun t => sumQ Pset fun p => sumQ Rset fun r1 =>
      sumQ (Rset.filter (fun r2 => r1 != r2)) fun r2 =>
        pm.XC_rr t p r1 r2 * σ.XD_rr t p r1 r2 * pm.d_rr r1 r2) +
    (sumQ Tset fun t => sumQ Pset fun p => sumQ Rset fun r => sumQ Uset fun u =>
      pm.XC_ru t p r u * σ.XD_ru t p r u * pm.d_ru r u) +
    (sumQ Tset fun t => sumQ Pset fun p => sumQ Hset fun h => sumQ Uset fun u =>
      pm.XC_hu t p h u * σ.XD_hu t p h u * pm.d_hu h u) +
    (sumQ Tset fun t => sumQ Pset fun p => sumQ Kset fun k => sumQ Uset fun u =>
      pm.XC_ku t p k u * σ.XD_ku t p k u * pm.d_ku k u)

/-- Total emissions used in the objective (lines 844–853): production,
inventory at the three storage classes, and transport on the six routes
I→R, J→R, J→H, J→K, R→H, R→K.  Neither the waste routes nor the
regional→regional cross-transfer route appears here. -/
def emision_total (pm : Params) (σ : Assignment) : ℚ :=
  (sumQ Tset fun t => sumQ Pset fun p => sumQ Rset fun r =>
      pm.EP t p r * σ.PR t p r) +
    (sumQ Tset fun t => sumQ Pset fun p => sumQ Rset fun r =>
      pm.EI_r t p r * σ.IR t p r) +
    (sumQ Tset fun t => sumQ Pset fun p => sumQ Hset fun h =>
      pm.EI_h t p h * σ.IH t p h) +
    (sumQ Tset fun t => sumQ Pset fun p => sumQ Kset fun k =>
      pm.EI_k t p k * σ.IK t p k) +
    (sumQ Tset fun t => sumQ Pset fun p => sumQ Iset fun i => sumQ Rset fun r =>
      pm.EX_ir t p i r * σ.XD_ir t p i r * pm.d_ir i r) +
    (sumQ Tset fun t => sumQ Pset fun p => sumQ Jset fun j => sumQ Rset fun r =>
      pm.EX_jr t p j r * σ.XD_jr t p j r * pm.d_jr j r) +
    (sumQ Tset fun t => sumQ Pset fun p => sumQ Jset fun j => sumQ Hset fun h =>
      pm.EX_jh t p j h * σ.XD_jh t p j h * pm.d_jh j h) +
    (sumQ Tset fun t => sumQ Pset fun p => sumQ Jset fun j => sumQ Kset fun k =>
      pm.EX_jk t p j k * σ.XD_jk t p j k * pm.d_jk j k) +
    (sumQ Tset fun t => sumQ Pset fun p => sumQ Rset fun r => sumQ Hset fun h =>
      pm.EX_rh t p r h * σ.XD_rh t p r h * pm.d_rh r h) +
    (sumQ Tset fun t => sumQ Pset fun p => sumQ Rset fun r => sumQ Kset fun k =>
      pm.EX_rk t p r k * σ.XD_rk t p r k * pm.d_rk r k)

/-- TC7 (line 855): the emissions penalty, a fixed monetary rate times
total emissions. -/
def TC7 (pm : Params) (σ : Assignment) : ℚ := pm.EC * emision_total pm σ

/-- Profit (line 857): revenue minus the seven cost terms. -/
def beneficio_total (pm : Params) (σ : Assignment) : ℚ :=
  revenue pm σ -
    (TC1 pm σ + TC2 pm σ + TC3 pm σ + TC4 pm σ + TC5 pm σ + TC6 pm σ +
      TC7 pm σ)

/-- Total hospital demand over the horizon (line 860). -/
def demanda_total_h (pm : Params) : ℚ :=
  sumQ Tset fun t => sumQ Pset fun p => sumQ Hset fun h => pm.DM_h t p h

/-- Total clinic demand over the horizon (line 861). -/
def demanda_total_k (pm : Params) : ℚ :=
  sumQ Tset fun t => sumQ Pset fun p => sumQ Kset fun k => pm.DM_k t p k

/-- Total supply delivered to hospitals (lines 864–865). -/
def suministro_h (σ : Assignment) : ℚ :=
  (sumQ Tset fun t => sumQ Pset fun p => sumQ Jset fun j => sumQ Hset fun h =>
      σ.XD_jh t p j h) +
    (sumQ Tset fun t => sumQ Pset fun p => sumQ Rset fun r => sumQ Hset fun h =>
      σ.XD_rh t p r h)

/-- Total supply delivered to clinics (lines 866–867). -/
def suministro_k (σ : Assignment) : ℚ :=
  (sumQ Tset fun t => sumQ Pset fun p => sumQ Jset fun j => sumQ Kset fun k =>
      σ.XD_jk t p j k) +
    (sumQ Tset fun t => sumQ Pset fun p => sumQ Rset fun r => sumQ Kset fun k =>
      σ.XD_rk t p r k)

/-- TSH (line 870): hospital service term, `ρ × supply/demand`, falling
back to `ρ` itself when the demand total is not positive. -/
def TSH (pm : Params) (σ : Assignment) : ℚ :=
  if 0 < demanda_total_h pm then pm.RHO * (suministro_h σ / demanda_total_h pm)
  else pm.RHO

/-- TSK (line 871): clinic service term, `(1−ρ) × supply/demand`,
falling back to `1−ρ` when the demand total is not positive. -/
def TSK (pm : Params) (σ : Assignment) : ℚ :=
  if 0 < demanda_total_k pm then
    (1 - pm.RHO) * (suministro_k σ / demanda_total_k pm)
  else 1 - pm.RHO

/-- Service level TLS = TSH + TSK (line 874). -/
def tasa_cumplimiento (pm : Params) (σ : Assignment) : ℚ :=
  TSH pm σ + TSK pm σ

/-- The combined normalized objective value (lines 877–879). -/
def Z_combinado (pm : Params) (σ : Assignment) : ℚ :=
  pm.W1 * (beneficio_total pm σ / pm.Z_Pro_ref) +
    pm.W2 * (tasa_cumplimiento pm σ / pm.T_LS_ref) -
    pm.W3 * (emision_total pm σ / pm.T_E_ref)

/-- Composing the objective expression.  The source divides the three
criteria by the reference constants while building the Pyomo expression
(lines 877–879); a zero reference denominator makes that division raise
at composition time, which we embed as `Except.error`. -/
def objetivo_combinado_corregido (pm : Params) :
    Except String (Assignment → ℚ) :=
  if pm.Z_Pro_ref = 0 ∨ pm.T_LS_ref = 0 ∨ pm.T_E_ref = 0 then
    Except.error "zero reference denominator"
  else
    Except.ok (Z_combinado pm)

/-- Optimization sense of an objective. -/
inductive Sense where
  | maximize : Sense
  | minimize : Sense

/-- Line 883: `modelo_final.objetivo = Objective(rule=objetivo_combinado_corregido,
sense=maximize)` — the composed expression together with the maximize
sense, as handed to the solver. -/
def modelo_final_objetivo : Except String ((Assignment → ℚ) × Sense) :=
  (objetivo_combinado_corregido params₀).map (fun f => (f, Sense.maximize))

/-- Lines 883–889 as a pipeline: the objective is composed first and the
(external) solver is invoked only afterwards, so a composition failure
is raised before any solve attempt. -/
def componer_y_resolver {β : Type} (pm : Params)
    (solve : ((Assignment → ℚ) × Sense) → β) : Except String β :=
  ((objetivo_combinado_corregido pm).map (fun f => (f, Sense.maximize))).map solve

-- ===========================================================
-- Helper lemmas
-- ===========================================================

theorem sumQ_congr {α : Type} {l : List α} {f g : α → ℚ}
    (h : ∀ x ∈ l, f x = g x) : sumQ l f = sumQ l g := by
  unfold sumQ
  rw [List.map_congr_left h]

@[simp] theorem sumQ_zero {α : Type} (l : List α) :
    sumQ l (fun _ => (0 : ℚ)) = 0 := by
  simp [sumQ]

theorem sumQ_const {α : Type} (l : List α) (c : ℚ) :
    sumQ l (fun _ => c) = l.length * c := by
  unfold sumQ
  induction l with
  | nil => simp
  | cons a tl ih => simp [ih]; ring

theorem sumQ_add {α : Type} (l : List α) (f g : α → ℚ) :
    sumQ l (fun x => f x + g x) = sumQ l f + sumQ l g := by
  unfold sumQ
  induction l with
  | nil => simp
  | cons a tl ih => simp [ih]; ring

theorem sumQ_eq_zero {α : Type} {l : List α} {f : α → ℚ}
    (h : ∀ x ∈ l, f x = 0) : sumQ l f = 0 := by
  rw [sumQ_congr h, sumQ_zero]

theorem mem_Tset_iff {t : Nat} : t ∈ Tset ↔ 1 ≤ t ∧ t ≤ 45 := by
  simp only [Tset, List.mem_map, List.mem_range]
  constructor
  · rintro ⟨a, ha, rfl⟩; omega
  · rintro ⟨h1, h2⟩; exact ⟨t - 1, by omega, by omega⟩

theorem Tset_length : Tset.length = 45 := by
  simp [Tset]

theorem mem_restricciones {pm : Params} {c : Constr}
    (h : c ∈ balance_R ∨ c ∈ balance_H pm ∨ c ∈ balance_K pm ∨
      c ∈ capacidades pm ∨ c ∈ limite_ambiental pm ∨
      c ∈ limites_suministro pm ∨ c ∈ vida_util pm ∨
      c ∈ activacion_minima) : c ∈ restricciones pm := by
  simp only [restricciones, List.mem_append]
  tauto

theorem cBalR_mem {t : Nat} {p r : String} (ht : t ∈ Tset) (hp : p ∈ Pset)
    (hr : r ∈ Rset) : cBalR t p r ∈ balance_R :=
  List.mem_flatMap.mpr ⟨t, ht, List.mem_flatMap.mpr ⟨p, hp,
    List.mem_map.mpr ⟨r, hr, rfl⟩⟩⟩

theorem cBalH_mem {pm : Params} {t : Nat} {p h : String} (ht : t ∈ Tset)
    (hp : p ∈ Pset) (hh : h ∈ Hset) : cBalH pm t p h ∈ balance_H pm :=
  List.mem_flatMap.mpr ⟨t, ht, List.mem_flatMap.mpr ⟨p, hp,
    List.mem_map.mpr ⟨h, hh, rfl⟩⟩⟩

theorem cBalK_mem {pm : Params} {t : Nat} {p k : String} (ht : t ∈ Tset)
    (hp : p ∈ Pset) (hk : k ∈ Kset) : cBalK pm t p k ∈ balance_K pm :=
  List.mem_flatMap.mpr ⟨t, ht, List.mem_flatMap.mpr ⟨p, hp,
    List.mem_map.mpr ⟨k, hk, rfl⟩⟩⟩

theorem cSupH_mem {pm : Params} {t : Nat} {p h : String} (ht : t ∈ Tset)
    (hp : p ∈ Pset) (hh : h ∈ Hset) :
    cSupH pm t p h ∈ limites_suministro pm :=
  List.mem_flatMap.mpr ⟨t, ht, List.mem_flatMap.mpr ⟨p, hp,
    List.mem_append.mpr (Or.inl (List.mem_map.mpr ⟨h, hh, rfl⟩))⟩⟩

theorem cSupK_mem {pm : Params} {t : Nat} {p k : String} (ht : t ∈ Tset)
    (hp : p ∈ Pset) (hk : k ∈ Kset) :
    cSupK pm t p k ∈ limites_suministro pm :=
  List.mem_flatMap.mpr ⟨t, ht, List.mem_flatMap.mpr ⟨p, hp,
    List.mem_append.mpr (Or.inr (List.mem_map.mpr ⟨k, hk, rfl⟩))⟩⟩

theorem cCarbonCap_mem {pm : Params} {t : Nat} (ht : t ∈ Tset) :
    cCarbonCap pm t ∈ limite_ambiental pm :=
  List.mem_map.mpr ⟨t, ht, rfl⟩

-- ===========================================================
-- A concrete feasible scenario: zero demand, zero flows,
-- all facilities always active.
-- ===========================================================

/-- The parameter table with every hospital and clinic demand set to
zero (all other values as in `params₀`). -/
def params_sin_demanda : Params :=
  { params₀ with DM_h := fun _ _ _ => 0, DM_k := fun _ _ _ => 0 }

/-- The assignment with every continuous variable 0 and every activation
variable 1. -/
def σ0 : Assignment :=
  { XD_ir := fun _ _ _ _ => 0
    XD_jr := fun _ _ _ _ => 0
    XD_jh := fun _ _ _ _ => 0
    XD_jk := fun _ _ _ _ => 0
    XD_rh := fun _ _ _ _ => 0
    XD_rk := fun _ _ _ _ => 0
    XD_rr := fun _ _ _ _ => 0
    XD_ru := fun _ _ _ _ => 0
    XD_hu := fun _ _ _ _ => 0
    XD_ku := fun _ _ _ _ => 0
    PR := fun _ _ _ => 0
    IR := fun _ _ _ => 0
    IH := fun _ _ _ => 0
    IK := fun _ _ _ => 0
    WO_r := fun _ _ _ => 0
    WO_h := fun _ _ _ => 0
    WO_k := fun _ _ _ => 0
    y_i := fun _ _ => 1
    y_j := fun _ _ => 1
    y_r := fun _ _ => 1 }

theorem feasible_σ0 : Feasible params_sin_demanda σ0 := by
  constructor
  · refine ⟨?_, ?_, ?_, ?_, ?_, ?_, ?_, ?_, ?_, ?_, ?_, ?_, ?_, ?_, ?_,
      ?_, ?_, ?_, ?_, ?_⟩ <;> intros <;> simp [σ0]
  · intro c hc
    simp only [restricciones, List.mem_append] at hc
    rcases hc with (((((((hc | hc) | hc) | hc) | hc) | hc) | hc) | hc)
    · simp only [balance_R, List.mem_flatMap, List.mem_map] at hc
      obtain ⟨t, _, p, _, r, _, rfl⟩ := hc
      simp [Constr.holds, cBalR, σ0, sumQ_eq_zero]
    · simp only [balance_H, List.mem_flatMap, List.mem_map] at hc
      obtain ⟨t, _, p, _, h, _, rfl⟩ := hc
      simp [Constr.holds, cBalH, σ0, params_sin_demanda]
    · simp only [balance_K, List.mem_flatMap, List.mem_map] at hc
      obtain ⟨t, _, p, _, k, _, rfl⟩ := hc
      simp [Constr.holds, cBalK, σ0, params_sin_demanda]
    · simp only [capacidades, List.mem_flatMap, List.mem_append,
        List.mem_map, List.mem_cons, List.not_mem_nil, or_false] at hc
      obtain ⟨t, _, p, _, hc⟩ := hc
      rcases hc with ((((⟨r, _, (rfl | rfl)⟩ | ⟨i, _, rfl⟩) | ⟨j, _, rfl⟩) |
        ⟨h, _, rfl⟩) | ⟨k, _, rfl⟩) <;>
        simp [Constr.holds, cCapPR, cCapIR, cCapBM, cCapLBDC, cCapIH,
          cCapIK, σ0, params_sin_demanda, params₀, central_int] <;>
        norm_num
    · simp only [limite_ambiental, List.mem_map] at hc
      obtain ⟨t, _, rfl⟩ := hc
      simp [Constr.holds, cCarbonCap, emision_prod_t, emision_inv_t,
        emision_transp_t, σ0, sumQ_eq_zero, params_sin_demanda, params₀]
    · simp only [limites_suministro, List.mem_flatMap, List.mem_append,
        List.mem_map] at hc
      obtain ⟨t, _, p, _, hc⟩ := hc
      rcases hc with (⟨h, _, rfl⟩ | ⟨k, _, rfl⟩) <;>
        simp [Constr.holds, cSupH, cSupK, σ0, params_sin_demanda]
    · simp only [vida_util, List.mem_flatMap] at hc
      obtain ⟨t, _, hc⟩ := hc
      by_cases halpha : params_sin_demanda.ALPHA < t
      · rw [if_pos halpha] at hc
        simp only [List.mem_flatMap, List.mem_append, List.mem_map] at hc
        obtain ⟨p, _, hc⟩ := hc
        rcases hc with ((⟨r, _, rfl⟩ | ⟨h, _, rfl⟩) | ⟨k, _, rfl⟩) <;>
          simp [Constr.holds, cShelfR, cShelfH, cShelfK, σ0]
      · rw [if_neg halpha] at hc
        simp at hc
    · simp only [activacion_minima, List.mem_append, List.mem_map] at hc
      rcases hc with ((⟨i, _, rfl⟩ | ⟨j, _, rfl⟩) | ⟨r, _, rfl⟩) <;>
        simp [Constr.holds, cActI, cActJ, cActR, σ0, sumQ_const,
          Tset_length]

-- ===========================================================
-- Spec-side restatements
-- ===========================================================

/-- Spec-shaped inflows of a regional bank in period `t`: own production
plus receipts from mobile units, local centers and the other regional
banks. -/
def inflows_R (σ : Assignment) (t : Nat) (p r : String) : ℚ :=
  σ.PR t p r +
    sumQ Iset (fun i => σ.XD_ir t p i r) +
    sumQ Jset (fun j => σ.XD_jr t p j r) +
    sumQ (Rset.filter (fun r2 => r2 != r)) (fun r2 => σ.XD_rr t p r2 r)

/-- Spec-shaped outflows of a regional bank in period `t` (discard kept
separate): shipments to hospitals, clinics, other regional banks and
waste centers. -/
def outflows_R (σ : Assignment) (t : Nat) (p r : String) : ℚ :=
  sumQ Hset (fun h => σ.XD_rh t p r h) +
    sumQ Kset (fun k => σ.XD_rk t p r k) +
    sumQ (Rset.filter (fun r2 => r2 != r)) (fun r2 => σ.XD_rr t p r r2) +
    sumQ Uset (fun u => σ.XD_ru t p r u)

/-- Spec-shaped inflows of a hospital: receipts from local centers and
regional banks; no production term exists for hospitals. -/
def inflows_H (σ : Assignment) (t : Nat) (p h : String) : ℚ :=
  sumQ Jset (fun j => σ.XD_jh t p j h) + sumQ Rset (fun r => σ.XD_rh t p r h)

/-- Spec-shaped outflows of a hospital (discard kept separate): the
fixed demand consumed by patients plus shipments to waste centers. -/
def outflows_H (pm : Params) (σ : Assignment) (t : Nat) (p h : String) : ℚ :=
  pm.DM_h t p h + sumQ Uset (fun u => σ.XD_hu t p h u)

/-- Spec-shaped inflows of a clinic. -/
def inflows_K (σ : Assignment) (t : Nat) (p k : String) : ℚ :=
  sumQ Jset (fun j => σ.XD_jk t p j k) + sumQ Rset (fun r => σ.XD_rk t p r k)

/-- Spec-shaped outflows of a clinic (discard kept separate). -/
def outflows_K (pm : Params) (σ : Assignment) (t : Nat) (p k : String) : ℚ :=
  pm.DM_k t p k + sumQ Uset (fun u => σ.XD_ku t p k u)

-- ===========================================================
-- Claim theorems
-- ===========================================================

/-- C1: for every feasible assignment, at every inventory-holding node
(regional bank, hospital, clinic), every product and every period,
previous-period inventory plus all applicable inflows equals
end-of-period inventory plus all applicable outflows plus discard, where
the first-period carry-in is the literal value zero.  At hospitals and
clinics the fixed demand is an outflow and there is no production term
(`inflows_H`/`inflows_K` contain no production), while at regional banks
production is an inflow (`inflows_R`). -/
theorem C1_mass_balance (pm : Params) (σ : Assignment)
    (hF : Feasible pm σ) : ∀ t ∈ Tset, ∀ p ∈ Pset,
    (∀ r ∈ Rset,
      (if t = 1 then 0 else σ.IR (t - 1) p r) + inflows_R σ t p r =
        σ.IR t p r + outflows_R σ t p r + σ.WO_r t p r) ∧
    (∀ h ∈ Hset,
      (if t = 1 then 0 else σ.IH (t - 1) p h) + inflows_H σ t p h =
        σ.IH t p h + outflows_H pm σ t p h + σ.WO_h t p h) ∧
    (∀ k ∈ Kset,
      (if t = 1 then 0 else σ.IK (t - 1) p k) + inflows_K σ t p k =
        σ.IK t p k + outflows_K pm σ t p k + σ.WO_k t p k) := by
  intro t ht p hp
  refine ⟨?_, ?_, ?_⟩
  · intro r hr
    have h := hF.2 _ (mem_restricciones (Or.inl (cBalR_mem ht hp hr)))
    simp only [Constr.holds, cBalR] at h
    simp only [inflows_R, outflows_R]
    linarith
  · intro hh hmem
    have h := hF.2 _
      (mem_restricciones (Or.inr (Or.inl (cBalH_mem ht hp hmem))))
    simp only [Constr.holds, cBalH] at h
    simp only [inflows_H, outflows_H]
    linarith
  · intro k hk
    have h := hF.2 _
      (mem_restricciones (Or.inr (Or.inr (Or.inl (cBalK_mem ht hp hk)))))
    simp only [Constr.holds, cBalK] at h
    simp only [inflows_K, outflows_K]
    linarith

/-- C1 witness: the zero-demand scenario with the all-zero assignment is
feasible and satisfies the regional-bank balance at `t = 1`. -/
theorem C1_mass_balance_witness :
    Feasible params_sin_demanda σ0 ∧
      ((if (1 : Nat) = 1 then 0 else σ0.IR 0 "A" "RBB1") +
          inflows_R σ0 1 "A" "RBB1" =
        σ0.IR 1 "A" "RBB1" + outflows_R σ0 1 "A" "RBB1" +
          σ0.WO_r 1 "A" "RBB1") :=
  ⟨feasible_σ0,
    (C1_mass_balance params_sin_demanda σ0 feasible_σ0 1
        (mem_Tset_iff.mpr (by omega)) "A" (by simp [Pset])).1 "RBB1"
      (by simp [Rset])⟩

/-- C6: for every feasible assignment, aggregate inbound supply to each
hospital in (t, p) is at most 1.1 × its demand and to each clinic at
most 1.6 × its demand; in particular a hospital with demand 10 receives
at most 11. -/
theorem C6_service_bound (pm : Params) (σ : Assignment)
    (hF : Feasible pm σ) : ∀ t ∈ Tset, ∀ p ∈ Pset,
    (∀ h ∈ Hset,
      inflows_H σ t p h ≤ 1.1 * pm.DM_h t p h ∧
        (pm.DM_h t p h = 10 → inflows_H σ t p h ≤ 11)) ∧
    (∀ k ∈ Kset, inflows_K σ t p k ≤ 1.6 * pm.DM_k t p k) := by
  intro t ht p hp
  constructor
  · intro h hh
    have hc := hF.2 _ (mem_restricciones (Or.inr (Or.inr (Or.inr (Or.inr
      (Or.inr (Or.inl (cSupH_mem ht hp hh))))))))
    simp only [Constr.holds, cSupH] at hc
    simp only [inflows_H]
    refine ⟨hc, ?_⟩
    intro h10
    rw [h10] at hc
    calc sumQ Jset (fun j => σ.XD_jh t p j h) +
          sumQ Rset (fun r => σ.XD_rh t p r h) ≤ 1.1 * 10 := hc
      _ ≤ 11 := by norm_num
  · intro k hk
    have hc := hF.2 _ (mem_restricciones (Or.inr (Or.inr (Or.inr (Or.inr
      (Or.inr (Or.inl (cSupK_mem ht hp hk))))))))
    simp only [Constr.holds, cSupK] at hc
    simp only [inflows_K]
    exact hc

/-- C6 witness: the zero-demand scenario is feasible and the hospital
supply bound holds there at `t = 1`, `p = A`, `h = H1`. -/
theorem C6_service_bound_witness :
    Feasible params_sin_demanda σ0 ∧
      inflows_H σ0 1 "A" "H1" ≤ 1.1 * params_sin_demanda.DM_h 1 "A" "H1" :=
  ⟨feasible_σ0,
    ((C6_service_bound params_sin_demanda σ0 feasible_σ0 1
        (mem_Tset_iff.mpr (by omega)) "A" (by simp [Pset])).1 "H1"
      (by simp [Hset])).1⟩

set_option maxRecDepth 20000 in
/-- C4: the shelf-life family is satisfied exactly when
`discard[t] ≤ inventory[t−ALPHA]` holds at every inventory-holding node
for every period `t > ALPHA` — periods `t ≤ ALPHA` impose nothing, since
no constraint is generated for them — and at the source parameters
(ALPHA = 25, 45 periods) the generator emits `20·4·(2+4+2) = 640`
shelf-life constraints, i.e. only for the 20 periods beyond ALPHA. -/
theorem C4_shelf_life :
    (∀ (pm : Params) (σ : Assignment),
      (∀ c ∈ vida_util pm, c.holds σ) ↔
        ∀ t ∈ Tset, pm.ALPHA < t → ∀ p ∈ Pset,
          (∀ r ∈ Rset, σ.WO_r t p r ≤ σ.IR (t - pm.ALPHA) p r) ∧
          (∀ h ∈ Hset, σ.WO_h t p h ≤ σ.IH (t - pm.ALPHA) p h) ∧
          (∀ k ∈ Kset, σ.WO_k t p k ≤ σ.IK (t - pm.ALPHA) p k)) ∧
    (vida_util params₀).length = 640 := by
  constructor
  · intro pm σ
    constructor
    · intro hAll t ht hα p hp
      refine ⟨fun r hr => ?_, fun h hh => ?_, fun k hk => ?_⟩
      · exact hAll _ (List.mem_flatMap.mpr ⟨t, ht, by
          rw [if_pos hα]
          exact List.mem_flatMap.mpr ⟨p, hp, List.mem_append.mpr
            (Or.inl (List.mem_append.mpr
              (Or.inl (List.mem_map.mpr ⟨r, hr, rfl⟩))))⟩⟩)
      · exact hAll _ (List.mem_flatMap.mpr ⟨t, ht, by
          rw [if_pos hα]
          exact List.mem_flatMap.mpr ⟨p, hp, List.mem_append.mpr
            (Or.inl (List.mem_append.mpr
              (Or.inr (List.mem_map.mpr ⟨h, hh, rfl⟩))))⟩⟩)
      · exact hAll _ (List.mem_flatMap.mpr ⟨t, ht, by
          rw [if_pos hα]
          exact List.mem_flatMap.mpr ⟨p, hp, List.mem_append.mpr
            (Or.inr (List.mem_map.mpr ⟨k, hk, rfl⟩))⟩⟩)
    · intro hRHS c hc
      simp only [vida_util, List.mem_flatMap] at hc
      obtain ⟨t, ht, hc⟩ := hc
      by_cases hα : pm.ALPHA < t
      · rw [if_pos hα] at hc
        simp only [List.mem_flatMap, List.mem_append, List.mem_map] at hc
        obtain ⟨p, hp, hc⟩ := hc
        rcases hc with ((⟨r, hr, rfl⟩ | ⟨h, hh, rfl⟩) | ⟨k, hk, rfl⟩)
        · exact ((hRHS t ht hα p hp).1 r hr : _)
        · exact ((hRHS t ht hα p hp).2.1 h hh : _)
        · exact ((hRHS t ht hα p hp).2.2 k hk : _)
      · rw [if_neg hα] at hc
        simp at hc
  · simp [vida_util, Tset, List.range_succ, params₀, Pset, Rset, Hset, Kset]

/-- C4 witness: in the feasible zero scenario, the discard bound derived
from the theorem holds at `t = 26` (the first period beyond ALPHA = 25). -/
theorem C4_shelf_life_witness :
    σ0.WO_r 26 "A" "RBB1" ≤ σ0.IR (26 - params_sin_demanda.ALPHA) "A" "RBB1" :=
  ((C4_shelf_life.1 params_sin_demanda σ0).mp
    (fun c hc => feasible_σ0.2 c (mem_restricciones (Or.inr (Or.inr (Or.inr
      (Or.inr (Or.inr (Or.inr (Or.inl hc)))))))))
    26 (mem_Tset_iff.mpr (by omega))
    (by simp [params_sin_demanda, params₀]) "A" (by simp [Pset])).1 "RBB1"
    (by simp [Rset])

theorem sumQ_cons {α : Type} (a : α) (l : List α) (f : α → ℚ) :
    sumQ (a :: l) f = f a + sumQ l f := by
  simp [sumQ]

theorem sumQ_comm {α β : Type} (A : List α) (B : List β) (f : α → β → ℚ) :
    sumQ A (fun a => sumQ B (f a)) =
      sumQ B (fun b => sumQ A (fun a => f a b)) := by
  induction A with
  | nil =>
    rw [show (fun b => sumQ ([] : List α) (fun a => f a b)) =
        (fun _ : β => (0 : ℚ)) from funext (fun b => by simp [sumQ])]
    simp [sumQ]
  | cons a As ih =>
    rw [sumQ_cons, ih, ← sumQ_add]
    exact sumQ_congr (fun b _ => (sumQ_cons a As (fun a => f a b)).symm)

/-- Spec-shaped system-wide emissions of period `t`: emission-weighted
production, emission-weighted inventory at every inventory-holding node
class, and emission-weighted flow × distance over every route family
carrying an emission factor — grouped by node (not by product) and with
the transport families as an explicit list. -/
def emisiones_sistema_t (pm : Params) (t : Nat) (σ : Assignment) : ℚ :=
  (sumQ Rset fun r => sumQ Pset fun p => pm.EP t p r * σ.PR t p r) +
    ((sumQ Rset fun r => sumQ Pset fun p => pm.EI_r t p r * σ.IR t p r) +
      (sumQ Hset fun h => sumQ Pset fun p => pm.EI_h t p h * σ.IH t p h) +
      (sumQ Kset fun k => sumQ Pset fun p => pm.EI_k t p k * σ.IK t p k)) +
    ([(sumQ Pset fun p => sumQ Iset fun i => sumQ Rset fun r =>
          pm.EX_ir t p i r * σ.XD_ir t p i r * pm.d_ir i r),
      (sumQ Pset fun p => sumQ Jset fun j => sumQ Rset fun r =>
          pm.EX_jr t p j r * σ.XD_jr t p j r * pm.d_jr j r),
      (sumQ Pset fun p => sumQ Jset fun j => sumQ Hset fun h =>
          pm.EX_jh t p j h * σ.XD_jh t p j h * pm.d_jh j h),
      (sumQ Pset fun p => sumQ Jset fun j => sumQ Kset fun k =>
          pm.EX_jk t p j k * σ.XD_jk t p j k * pm.d_jk j k),
      (sumQ Pset fun p => sumQ Rset fun r => sumQ Hset fun h =>
          pm.EX_rh t p r h * σ.XD_rh t p r h * pm.d_rh r h),
      (sumQ Pset fun p => sumQ Rset fun r => sumQ Kset fun k =>
          pm.EX_rk t p r k * σ.XD_rk t p r k * pm.d_rk r k),
      (sumQ Pset fun p => sumQ Rset fun r1 =>
          sumQ (Rset.filter (fun r2 => r1 != r2)) fun r2 =>
            pm.EX_rr t p r1 r2 * σ.XD_rr t p r1 r2 * pm.d_rr r1 r2)]).sum

theorem emisiones_sistema_eq (pm : Params) (t : Nat) (σ : Assignment) :
    (cCarbonCap pm t).lhs σ = emisiones_sistema_t pm t σ := by
  simp only [cCarbonCap, emision_prod_t, emision_inv_t, emision_transp_t,
    emisiones_sistema_t, List.sum_cons, List.sum_nil]
  rw [sumQ_comm Pset Rset (fun p r => pm.EP t p r * σ.PR t p r),
    sumQ_comm Pset Rset (fun p r => pm.EI_r t p r * σ.IR t p r),
    sumQ_comm Pset Hset (fun p h => pm.EI_h t p h * σ.IH t p h),
    sumQ_comm Pset Kset (fun p k => pm.EI_k t p k * σ.IK t p k)]
  ring

/-- C3: the generator emits exactly one environmental-cap constraint per
period (`|limite_ambiental| = |T|`, one per `t`), each a single
system-wide inequality bounding emission-weighted production plus
emission-weighted inventory at every node class plus emission-weighted
flow × distance over every emission-carrying route by that period's
fixed cap; consequently every feasible assignment satisfies the
per-period cap. -/
theorem C3_environmental_cap :
    (∀ pm : Params, (limite_ambiental pm).length = Tset.length) ∧
    (∀ (pm : Params) (σ : Assignment),
      (∀ c ∈ limite_ambiental pm, c.holds σ) ↔
        ∀ t ∈ Tset, emisiones_sistema_t pm t σ ≤ pm.CAP t) ∧
    (∀ (pm : Params) (σ : Assignment), Feasible pm σ →
      ∀ t ∈ Tset, emisiones_sistema_t pm t σ ≤ pm.CAP t) := by
  have hiff : ∀ (pm : Params) (σ : Assignment),
      (∀ c ∈ limite_ambiental pm, c.holds σ) ↔
        ∀ t ∈ Tset, emisiones_sistema_t pm t σ ≤ pm.CAP t := by
    intro pm σ
    constructor
    · intro hAll t ht
      have h := hAll _ (cCarbonCap_mem ht)
      simp only [Constr.holds] at h
      rw [← emisiones_sistema_eq]
      exact h
    · intro hRHS c hc
      simp only [limite_ambiental, List.mem_map] at hc
      obtain ⟨t, ht, rfl⟩ := hc
      simp only [Constr.holds]
      rw [show (cCarbonCap pm t).lhs σ = emisiones_sistema_t pm t σ from
        emisiones_sistema_eq pm t σ]
      exact hRHS t ht
  refine ⟨fun pm => List.length_map _ _, hiff, ?_⟩
  intro pm σ hF t ht
  exact (hiff pm σ).mp
    (fun c hc => hF.2 c (mem_restricciones (Or.inr (Or.inr (Or.inr
      (Or.inr (Or.inl hc))))))) t ht

/-- C3 witness: in the feasible zero scenario the period-1 cap bound
derived from the theorem holds. -/
theorem C3_environmental_cap_witness :
    Feasible params_sin_demanda σ0 ∧
      emisiones_sistema_t params_sin_demanda 1 σ0 ≤ params_sin_demanda.CAP 1 :=
  ⟨feasible_σ0, C3_environmental_cap.2.2 params_sin_demanda σ0 feasible_σ0 1
    (mem_Tset_iff.mpr (by omega))⟩

/-- C7: with any zero reference denominator, composing the objective
fails with a configuration error, and the compose-then-solve pipeline
fails before the solver is ever invoked. -/
theorem C7_zero_reference (pm : Params)
    (h : pm.Z_Pro_ref = 0 ∨ pm.T_LS_ref = 0 ∨ pm.T_E_ref = 0) :
    objetivo_combinado_corregido pm =
        Except.error "zero reference denominator" ∧
      ∀ (β : Type) (solve : ((Assignment → ℚ) × Sense) → β),
        componer_y_resolver pm solve =
          Except.error "zero reference denominator" := by
  constructor
  · rw [objetivo_combinado_corregido, if_pos h]
  · intro β solve
    rw [componer_y_resolver, objetivo_combinado_corregido, if_pos h]
    rfl

/-- The source parameter table with the profit reference forced to
zero. -/
def params_ref_cero : Params := { params₀ with Z_Pro_ref := 0 }

/-- C7 witness: at a concrete parameter table with `Z_Pro_ref = 0`,
composition returns the configuration error. -/
theorem C7_zero_reference_witness :
    params_ref_cero.Z_Pro_ref = 0 ∧
      objetivo_combinado_corregido params_ref_cero =
        Except.error "zero reference denominator" :=
  ⟨rfl, (C7_zero_reference params_ref_cero (Or.inl rfl)).1⟩

/-- C8: when a demand-node class has zero total demand over the horizon,
its service term is exactly its weight coefficient (ρ for hospitals,
1 − ρ for clinics) — no division is attempted — and with nonzero
reference denominators the composer still returns a value normally. -/
theorem C8_zero_demand_service (pm : Params) (σ : Assignment) :
    (demanda_total_h pm = 0 → TSH pm σ = pm.RHO) ∧
    (demanda_total_k pm = 0 → TSK pm σ = 1 - pm.RHO) ∧
    (¬(pm.Z_Pro_ref = 0 ∨ pm.T_LS_ref = 0 ∨ pm.T_E_ref = 0) →
      objetivo_combinado_corregido pm = Except.ok (Z_combinado pm)) := by
  refine ⟨fun h => ?_, fun h => ?_, fun h => ?_⟩
  · rw [TSH, if_neg]
    rw [h]
    exact lt_irrefl 0
  · rw [TSK, if_neg]
    rw [h]
    exact lt_irrefl 0
  · rw [objetivo_combinado_corregido, if_neg h]

/-- C8 witness: at the zero-demand parameter table the hospital service
term equals ρ. -/
theorem C8_zero_demand_service_witness :
    demanda_total_h params_sin_demanda = 0 ∧
      TSH params_sin_demanda σ0 = params_sin_demanda.RHO := by
  have hd : demanda_total_h params_sin_demanda = 0 := by
    simp [demanda_total_h, params_sin_demanda]
  exact ⟨hd, (C8_zero_demand_service params_sin_demanda σ0).1 hd⟩

/-- The seven cost terms of the profit criterion, as the spec lists
them: fixed activation, acquisition, production, inventory holding,
discard handling, transport (waste routes included, inside `TC6`), and
the emissions penalty (rate × total emissions). -/
def costos_siete (pm : Params) (σ : Assignment) : List ℚ :=
  [TC1 pm σ, TC2 pm σ, TC3 pm σ, TC4 pm σ, TC5 pm σ, TC6 pm σ,
    pm.EC * emision_total pm σ]

/-- The composite objective as the spec words it:
`w1·(profit/profit_ref) + w2·(service/service_ref) − w3·(emissions/emissions_ref)`
with profit = revenue − the seven costs. -/
def objetivo_spec (pm : Params) (σ : Assignment) : ℚ :=
  pm.W1 * ((revenue pm σ - (costos_siete pm σ).sum) / pm.Z_Pro_ref) +
    pm.W2 * ((TSH pm σ + TSK pm σ) / pm.T_LS_ref) -
    pm.W3 * (emision_total pm σ / pm.T_E_ref)

/-- C2: the objective handed to the solver is the combined expression
with maximize sense, it equals the spec's composite formula (profit =
revenue − seven cost terms, emissions penalty = EC × total emissions),
and the three reference denominators are the fixed externally supplied
constants of the case study. -/
theorem C2_objective :
    modelo_final_objetivo = Except.ok (Z_combinado params₀, Sense.maximize) ∧
    (∀ (pm : Params) (σ : Assignment),
      Z_combinado pm σ = objetivo_spec pm σ) ∧
    params₀.Z_Pro_ref = 4488461514 ∧ params₀.T_LS_ref = 1.3185 ∧
    params₀.T_E_ref = 203.94 := by
  refine ⟨?_, ?_, rfl, rfl, rfl⟩
  · rw [modelo_final_objetivo, objetivo_combinado_corregido, if_neg]
    · rfl
    · simp only [params₀]
      norm_num
  · intro pm σ
    simp only [Z_combinado, objetivo_spec, beneficio_total, costos_siete,
      tasa_cumplimiento, TC7, List.sum_cons, List.sum_nil]
    ring_nf

-- ===========================================================
-- C10: regional-bank activation does not influence the objective
-- ===========================================================

/-- Replace only the regional-bank activation values of an assignment. -/
def update_y_r (σ : Assignment) (f : Nat → String → ℚ) : Assignment :=
  { σ with y_r := f }

/-- Every constraint family except the regional-bank minimum-activation
family (the only place `y_r` occurs). -/
def restricciones_sin_act_r (pm : Params) : List Constr :=
  balance_R ++ balance_H pm ++ balance_K pm ++ capacidades pm ++
    limite_ambiental pm ++ limites_suministro pm ++ vida_util pm ++
    (Iset.map cActI) ++ (Jset.map cActJ)

/-- C10: two assignments differing only in the regional-bank activation
variables have the same composite objective value — `y_r` appears in no
revenue or cost term (TC1 covers only mobile units and local centers) —
and every constraint outside the regional-bank minimum-activation family
is insensitive to `y_r`. -/
theorem C10_y_r_no_influence (pm : Params) (σ : Assignment)
    (f : Nat → String → ℚ) :
    Z_combinado pm (update_y_r σ f) = Z_combinado pm σ ∧
    TC1 pm (update_y_r σ f) = TC1 pm σ ∧
    ∀ c ∈ restricciones_sin_act_r pm,
      (c.holds (update_y_r σ f) ↔ c.holds σ) := by
  refine ⟨rfl, rfl, ?_⟩
  intro c hc
  simp only [restricciones_sin_act_r, List.mem_append] at hc
  rcases hc with ((((((((hc | hc) | hc) | hc) | hc) | hc) | hc) | hc) | hc)
  · simp only [balance_R, List.mem_flatMap, List.mem_map] at hc
    obtain ⟨t, _, p, _, r, _, rfl⟩ := hc
    exact Iff.rfl
  · simp only [balance_H, List.mem_flatMap, List.mem_map] at hc
    obtain ⟨t, _, p, _, h, _, rfl⟩ := hc
    exact Iff.rfl
  · simp only [balance_K, List.mem_flatMap, List.mem_map] at hc
    obtain ⟨t, _, p, _, k, _, rfl⟩ := hc
    exact Iff.rfl
  · simp only [capacidades, List.mem_flatMap, List.mem_append,
      List.mem_map, List.mem_cons, List.not_mem_nil, or_false] at hc
    obtain ⟨t, _, p, _, hc⟩ := hc
    rcases hc with ((((⟨r, _, (rfl | rfl)⟩ | ⟨i, _, rfl⟩) | ⟨j, _, rfl⟩) |
      ⟨h, _, rfl⟩) | ⟨k, _, rfl⟩) <;> exact Iff.rfl
  · simp only [limite_ambiental, List.mem_map] at hc
    obtain ⟨t, _, rfl⟩ := hc
    exact Iff.rfl
  · simp only [limites_suministro, List.mem_flatMap, List.mem_append,
      List.mem_map] at hc
    obtain ⟨t, _, p, _, hc⟩ := hc
    rcases hc with (⟨h, _, rfl⟩ | ⟨k, _, rfl⟩) <;> exact Iff.rfl
  · simp only [vida_util, List.mem_flatMap] at hc
    obtain ⟨t, _, hc⟩ := hc
    by_cases hα : pm.ALPHA < t
    · rw [if_pos hα] at hc
      simp only [List.mem_flatMap, List.mem_append, List.mem_map] at hc
      obtain ⟨p, _, hc⟩ := hc
      rcases hc with ((⟨r, _, rfl⟩ | ⟨h, _, rfl⟩) | ⟨k, _, rfl⟩) <;>
        exact Iff.rfl
    · rw [if_neg hα] at hc
      simp at hc
  · simp only [List.mem_map] at hc
    obtain ⟨i, _, rfl⟩ := hc
    exact Iff.rfl
  · simp only [List.mem_map] at hc
    obtain ⟨j, _, rfl⟩ := hc
    exact Iff.rfl

/-- C10 witness: at a concrete instance — flipping all regional-bank
activations from 1 to 0 in the zero scenario — the objective value is
unchanged. -/
theorem C10_y_r_no_influence_witness :
    Z_combinado params₀ (update_y_r σ0 (fun _ _ => 0)) =
      Z_combinado params₀ σ0 :=
  (C10_y_r_no_influence params₀ σ0 (fun _ _ => 0)).1

-- ===========================================================
-- C5: self cross-transfers
-- ===========================================================

/-- Replace the cross-transfer values only on equal origin/destination
pairs. -/
def update_self_rr (σ : Assignment)
    (f : Nat → String → String → String → ℚ) : Assignment :=
  { σ with XD_rr := fun t p r1 r2 =>
      if r1 = r2 then f t p r1 r2 else σ.XD_rr t p r1 r2 }

theorem update_self_rr_ne (σ : Assignment)
    (f : Nat → String → String → String → ℚ) {t : Nat} {p r1 r2 : String}
    (h : r1 ≠ r2) :
    (update_self_rr σ f).XD_rr t p r1 r2 = σ.XD_rr t p r1 r2 := by
  simp [update_self_rr, h]

theorem mem_filter_ne {l : List String} {r x : String}
    (hx : x ∈ l.filter (fun y => y != r)) : x ≠ r := by
  simpa using (List.mem_filter.mp hx).2

theorem mem_filter_ne' {l : List String} {r x : String}
    (hx : x ∈ l.filter (fun y => r != y)) : r ≠ x := by
  simpa using (List.mem_filter.mp hx).2

theorem cBalR_self_rr (σ : Assignment)
    (f : Nat → String → String → String → ℚ) (t : Nat) (p r : String) :
    ((cBalR t p r).holds (update_self_rr σ f) ↔ (cBalR t p r).holds σ) := by
  have h1 : ∀ x ∈ Rset.filter (fun y => y != r),
      (update_self_rr σ f).XD_rr t p x r = σ.XD_rr t p x r :=
    fun x hx => update_self_rr_ne σ f (mem_filter_ne hx)
  have h2 : ∀ x ∈ Rset.filter (fun y => y != r),
      (update_self_rr σ f).XD_rr t p r x = σ.XD_rr t p r x :=
    fun x hx => update_self_rr_ne σ f (Ne.symm (mem_filter_ne hx))
  simp only [Constr.holds, cBalR]
  rw [sumQ_congr h1, sumQ_congr h2]
  exact Iff.rfl

theorem emision_transp_t_self_rr (pm : Params) (t : Nat) (σ : Assignment)
    (f : Nat → String → String → String → ℚ) :
    emision_transp_t pm t (update_self_rr σ f) = emision_transp_t pm t σ := by
  have hlast :
      (sumQ Pset fun p => sumQ Rset fun r1 =>
        sumQ (Rset.filter (fun r2 => r1 != r2)) fun r2 =>
          pm.EX_rr t p r1 r2 * (update_self_rr σ f).XD_rr t p r1 r2 *
            pm.d_rr r1 r2) =
      (sumQ Pset fun p => sumQ Rset fun r1 =>
        sumQ (Rset.filter (fun r2 => r1 != r2)) fun r2 =>
          pm.EX_rr t p r1 r2 * σ.XD_rr t p r1 r2 * pm.d_rr r1 r2) :=
    sumQ_congr (fun p _ => sumQ_congr (fun r1 _ => sumQ_congr (fun r2 hr2 =>
      by rw [update_self_rr_ne σ f (mem_filter_ne' hr2)])))
  simp only [emision_transp_t]
  rw [hlast]
  exact rfl

theorem TC6_self_rr (pm : Params) (σ : Assignment)
    (f : Nat → String → String → String → ℚ) :
    TC6 pm (update_self_rr σ f) = TC6 pm σ := by
  have hrr :
      (sumQ Tset fun t => sumQ Pset fun p => sumQ Rset fun r1 =>
        sumQ (Rset.filter (fun r2 => r1 != r2)) fun r2 =>
          pm.XC_rr t p r1 r2 * (update_self_rr σ f).XD_rr t p r1 r2 *
            pm.d_rr r1 r2) =
      (sumQ Tset fun t => sumQ Pset fun p => sumQ Rset fun r1 =>
        sumQ (Rset.filter (fun r2 => r1 != r2)) fun r2 =>
          pm.XC_rr t p r1 r2 * σ.XD_rr t p r1 r2 * pm.d_rr r1 r2) :=
    sumQ_congr (fun t _ => sumQ_congr (fun p _ => sumQ_congr (fun r1 _ =>
      sumQ_congr (fun r2 hr2 =>
        by rw [update_self_rr_ne σ f (mem_filter_ne' hr2)]))))
  simp only [TC6]
  rw [hrr]
  exact rfl

/-- C5 counterexample: the declared cross-transfer variable index space
(`Var(m.T, m.P, m.R, m.R)`, source line 470) does contain an
equal-origin/destination tuple, so a self-transfer decision variable
does exist in the flow variable set — the claim's first half is false of
the code. -/
theorem C5_self_transfer_counterexample :
    (1, "A", "RBB1", "RBB1") ∈ XD_rr_indices :=
  List.mem_flatMap.mpr ⟨1, mem_Tset_iff.mpr (by omega),
    List.mem_flatMap.mpr ⟨"A", by simp [Pset],
      List.mem_flatMap.mpr ⟨"RBB1", by simp [Rset],
        List.mem_map.mpr ⟨"RBB1", by simp [Rset], rfl⟩⟩⟩⟩

/-- C5 (amended): although the self-pair variables are declared, every
cross-transfer summation in the generated constraints and in the
objective ranges only over distinct pairs of regional banks: changing
the self-transfer values alone changes no constraint's truth value and
no objective value. -/
theorem C5_no_self_in_sums (pm : Params) (σ : Assignment)
    (f : Nat → String → String → String → ℚ) :
    (∀ c ∈ restricciones pm,
      (c.holds (update_self_rr σ f) ↔ c.holds σ)) ∧
    Z_combinado pm (update_self_rr σ f) = Z_combinado pm σ := by
  constructor
  · intro c hc
    simp only [restricciones, List.mem_append] at hc
    rcases hc with (((((((hc | hc) | hc) | hc) | hc) | hc) | hc) | hc)
    · simp only [balance_R, List.mem_flatMap, List.mem_map] at hc
      obtain ⟨t, _, p, _, r, _, rfl⟩ := hc
      exact cBalR_self_rr σ f t p r
    · simp only [balance_H, List.mem_flatMap, List.mem_map] at hc
      obtain ⟨t, _, p, _, h, _, rfl⟩ := hc
      exact Iff.rfl
    · simp only [balance_K, List.mem_flatMap, List.mem_map] at hc
      obtain ⟨t, _, p, _, k, _, rfl⟩ := hc
      exact Iff.rfl
    · simp only [capacidades, List.mem_flatMap, List.mem_append,
        List.mem_map, List.mem_cons, List.not_mem_nil, or_false] at hc
      obtain ⟨t, _, p, _, hc⟩ := hc
      rcases hc with ((((⟨r, _, (rfl | rfl)⟩ | ⟨i, _, rfl⟩) | ⟨j, _, rfl⟩) |
        ⟨h, _, rfl⟩) | ⟨k, _, rfl⟩) <;> exact Iff.rfl
    · simp only [limite_ambiental, List.mem_map] at hc
      obtain ⟨t, _, rfl⟩ := hc
      simp only [Constr.holds, cCarbonCap]
      rw [emision_transp_t_self_rr]
      exact Iff.rfl
    · simp only [limites_suministro, List.mem_flatMap, List.mem_append,
        List.mem_map] at hc
      obtain ⟨t, _, p, _, hc⟩ := hc
      rcases hc with (⟨h, _, rfl⟩ | ⟨k, _, rfl⟩) <;> exact Iff.rfl
    · simp only [vida_util, List.mem_flatMap] at hc
      obtain ⟨t, _, hc⟩ := hc
      by_cases hα : pm.ALPHA < t
      · rw [if_pos hα] at hc
        simp only [List.mem_flatMap, List.mem_append, List.mem_map] at hc
        obtain ⟨p, _, hc⟩ := hc
        rcases hc with ((⟨r, _, rfl⟩ | ⟨h, _, rfl⟩) | ⟨k, _, rfl⟩) <;>
          exact Iff.rfl
      · rw [if_neg hα] at hc
        simp at hc
    · simp only [activacion_minima, List.mem_append, List.mem_map] at hc
      rcases hc with ((⟨i, _, rfl⟩ | ⟨j, _, rfl⟩) | ⟨r, _, rfl⟩) <;>
        exact Iff.rfl
  · simp only [Z_combinado, beneficio_total, TC7]
    rw [TC6_self_rr]
    exact rfl

-- ===========================================================
-- C9: cap emissions versus objective emissions
-- ===========================================================

/-- An assignment whose only nonzero value is one unit of cross-transfer
flow RBB1→RBB2 in period 1 for product A. -/
def σ_rr : Assignment :=
  { σ0 with XD_rr := fun t p r1 r2 =>
      if t = 1 ∧ p = "A" ∧ r1 = "RBB1" ∧ r2 = "RBB2" then 1 else 0 }

/-- The cross-transfer transport emissions over the horizon: the term
present in the per-period environmental cap but absent from the
objective's `emision_total`. -/
def emisiones_rr (pm : Params) (σ : Assignment) : ℚ :=
  sumQ Tset fun t => sumQ Pset fun p => sumQ Rset fun r1 =>
    sumQ (Rset.filter (fun r2 => r1 != r2)) fun r2 =>
      pm.EX_rr t p r1 r2 * σ.XD_rr t p r1 r2 * pm.d_rr r1 r2

/-- Replace only the three waste-route flow families of an assignment. -/
def update_waste (σ : Assignment)
    (fru fhu fku : Nat → String → String → String → ℚ) : Assignment :=
  { σ with XD_ru := fru, XD_hu := fhu, XD_ku := fku }

/-- C9 counterexample: at a concrete assignment carrying one unit of
cross-transfer flow, the horizon sum of the environmental-cap left-hand
sides differs from the objective's total-emissions expression — the two
expressions do not aggregate the same routes (the cap includes
regional→regional emissions, the emissions total does not). -/
theorem C9_emissions_counterexample :
    sumQ Tset (fun t => (cCarbonCap params₀ t).lhs σ_rr) ≠
      emision_total params₀ σ_rr := by
  have hzero : ∀ t ∈ Tset, t ≠ 1 → (cCarbonCap params₀ t).lhs σ_rr = 0 := by
    intro t _ ht
    simp [cCarbonCap, emision_prod_t, emision_inv_t, emision_transp_t,
      σ_rr, σ0, ht]
  have h1 : (cCarbonCap params₀ 1).lhs σ_rr = 153 / 20000 := by
    simp [cCarbonCap, emision_prod_t, emision_inv_t, emision_transp_t,
      σ_rr, σ0, params₀, Pset, Rset, Iset, Jset, Hset, Kset, sumQ]
    norm_num
  have hsum : sumQ Tset (fun t => (cCarbonCap params₀ t).lhs σ_rr) =
      153 / 20000 := by
    rw [sumQ_congr (fun t ht => show (cCarbonCap params₀ t).lhs σ_rr =
        if t = 1 then 153 / 20000 else 0 from by
      by_cases h : t = 1
      · rw [if_pos h, h, h1]
      · rw [if_neg h, hzero t ht h])]
    norm_num [sumQ, Tset, List.range_succ]
  have hem : emision_total params₀ σ_rr = 0 := by
    simp [emision_total, σ_rr, σ0]
  rw [hsum, hem]
  norm_num

/-- C9 (amended): the horizon sum of the environmental-cap left-hand
sides equals the objective's total-emissions expression **plus** the
cross-transfer transport emissions (both expressions otherwise aggregate
the same production, inventory and six-route transport terms); the
three waste routes contribute to neither expression, and the emissions
penalty TC7 is the monetary rate times that same `emision_total`. -/
theorem C9_emissions_decomposition (pm : Params) (σ : Assignment) :
    sumQ Tset (fun t => (cCarbonCap pm t).lhs σ) =
        emision_total pm σ + emisiones_rr pm σ ∧
      (∀ fru fhu fku,
        emision_total pm (update_waste σ fru fhu fku) = emision_total pm σ ∧
        ∀ t, (cCarbonCap pm t).lhs (update_waste σ fru fhu fku) =
          (cCarbonCap pm t).lhs σ) ∧
      TC7 pm σ = pm.EC * emision_total pm σ := by
  refine ⟨?_, fun fru fhu fku => ⟨rfl, fun t => rfl⟩, rfl⟩
  simp only [cCarbonCap, emision_prod_t, emision_inv_t, emision_transp_t,
    emision_total, emisiones_rr, sumQ_add]
  ring

/-- C9 witness: the decomposition evaluated at the concrete one-unit
cross-transfer assignment. -/
theorem C9_emissions_decomposition_witness :
    sumQ Tset (fun t => (cCarbonCap params₀ t).lhs σ_rr) =
      emision_total params₀ σ_rr + emisiones_rr params₀ σ_rr :=
  (C9_emissions_decomposition params₀ σ_rr).1

/-- C5 witness: perturbing the self-transfer values by a concrete
constant leaves the objective value unchanged. -/
theorem C5_no_self_in_sums_witness :
    Z_combinado params₀ (update_self_rr σ0 (fun _ _ _ _ => 5)) =
      Z_combinado params₀ σ0 :=
  (C5_no_self_in_sums params₀ σ0 (fun _ _ _ _ => 5)).2

end BloodSC
